import Mathlib

/-!
Shallow embedding of the hidden-service client endpoint core of the
loki-network repository (`llarp::service::Endpoint` and
`Endpoint::OutboundContext`, src/llarp/service/endpoint.cpp), together with
theorems checking the natural-language specification against that code.

Machine integers (`uint64_t`, `llarp_time_t`) are modelled as `Nat` with
explicit reduction modulo `2 ^ 64` wherever the source performs unsigned
arithmetic that can wrap (seqno increments, time subtraction).  Finite maps
(`std::map`, `std::unordered_map`) are modelled as association lists so that
the source's iterator loops can be embedded step by step.  External
collaborators that the spec places out of scope (path builder, crypto,
DHT transport) appear as oracle parameters or oracle bits.
-/

namespace Loki

/-- Width of `uint64_t` / `llarp_time_t`. -/
def W64 : Nat := 2 ^ 64

/-- Unsigned 64-bit subtraction `a - b` exactly as C++ computes it on
`uint64_t` operands (wrapping modulo `2 ^ 64`). -/
def sub64 (a b : Nat) : Nat := (a % W64 + (W64 - b % W64)) % W64

/-- `llarp::service::Introduction`: a rendezvous advertisement
`(router, pathID, expiresAt)`. -/
structure Introduction where
  router : Nat
  pathID : Nat
  expiresAt : Nat
deriving DecidableEq

/-- Modelled from the spec: `Introduction::Clear` (declared outside src/)
zeroes an introduction; the data model gives no other initial value, so the
constructor's cleared `selectedIntro` has `expiresAt = 0` and zero ids. -/
def Introduction.Clear : Introduction := ⟨0, 0, 0⟩

/-- `llarp::service::IntroSet`
`(A, I, K, topic, lastSignedAt, signature)`.  The identity `A` and the KEM
key `K` are opaque scalars; the signature is modelled as a verification
oracle bit `sigOk` (crypto is an external collaborator per the spec); `T` is
the last-signed timestamp consulted by `IsNewerThan`. -/
structure IntroSet where
  A : Nat
  I : List Introduction
  K : Nat
  topic : Nat
  T : Nat
  sigOk : Bool
deriving DecidableEq

/-- Modelled from the spec: `IntroSet::HasExpiredIntros(now)` (declared
outside src/) holds iff any listed introduction is expired, an introduction
being expired when `now ≥ expiresAt`. -/
def IntroSet.HasExpiredIntros (s : IntroSet) (now : Nat) : Bool :=
  s.I.any fun i => decide (i.expiresAt ≤ now)

/-- Modelled from the spec: `IntroSet::IsNewerThan(other)` (declared outside
src/) compares last-signed timestamps, accepting only strictly newer sets
("accept only if newer.lastSignedAt > current.lastSignedAt"). -/
def IntroSet.IsNewerThan (self other : IntroSet) : Bool :=
  decide (other.T < self.T)

/-- Per-ConvoTag session cache entry
`(remote, intro, sharedKey, seqno, lastUsed)`; keys and the shared key are
opaque scalars. -/
structure Session where
  remote : Nat
  intro : Introduction
  sharedKey : Nat
  seqno : Nat
  lastUsed : Nat
deriving DecidableEq

/-- Modelled from the spec: a value-initialized `Session` as inserted by the
cache writers has `seqno = 0` ("Seqno starts at 0"). -/
def Session.fresh : Session := ⟨0, Introduction.Clear, 0, 0, 0⟩

/-- Modelled from the spec: the pending-lookup entry (`IServiceLookup`,
declared outside src/) carries its txid and a deadline `timeoutAt`;
`IsTimedOut(now)` holds when the deadline is past (`age ≥ timeout`). -/
structure ServiceLookup where
  txid : Nat
  timeoutAt : Nat
deriving DecidableEq

/-- Modelled from the spec: a pending lookup is timed out when its deadline
is past. -/
def ServiceLookup.IsTimedOut (l : ServiceLookup) (now : Nat) : Bool :=
  decide (l.timeoutAt ≤ now)

/-- Modelled from the spec: `INTROSET_PUBLISH_INTERVAL` (~30 min, in ms). -/
def INTROSET_PUBLISH_INTERVAL : Nat := 1800000

/-- Modelled from the spec: `INTROSET_PUBLISH_RETRY_INTERVAL` (~1 min, ms). -/
def INTROSET_PUBLISH_RETRY_INTERVAL : Nat := 60000

/-- Lookup in an association-list map (first matching key, as in the
unique-key `std::map`s of the source). -/
def lookupKey {α : Type} (k : Nat) : List (Nat × α) → Option α
  | [] => none
  | (k2, v) :: rest => if k2 = k then some v else lookupKey k rest

/-- In-place value update of the entry holding key `k` (no-op when the key
is absent), as iterator assignment does on a `std::map` entry. -/
def updateKey {α : Type} (k : Nat) (v : α) : List (Nat × α) → List (Nat × α)
  | [] => []
  | (k2, v2) :: rest =>
    if k2 = k then (k2, v) :: rest else (k2, v2) :: updateKey k v rest

/-- Erasure of the entry holding key `k`. -/
def eraseKey {α : Type} (k : Nat) : List (Nat × α) → List (Nat × α)
  | [] => []
  | (k2, v2) :: rest => if k2 = k then rest else (k2, v2) :: eraseKey k rest

/-- The `llarp::service::Endpoint` state touched by the claims: identity,
publish bookkeeping, the signed introset, the tag-keyed session cache, the
pending lookup tables and the remote-session key set. -/
structure Endpoint where
  m_Identity_pub : Nat
  m_CurrentPublishTX : Nat
  m_LastPublish : Nat
  m_LastPublishAttempt : Nat
  m_IntroSet : IntroSet
  m_Sessions : List (Nat × Session)
  m_PendingLookups : List (Nat × ServiceLookup)
  m_PendingServiceLookups : List (Nat × Nat)
  m_RemoteSessions : List Nat
deriving DecidableEq

/-- `Endpoint::ShouldPublishDescriptors` (endpoint.cpp lines 487-495):
if the current introset has an expired intro, allow a retry when no publish
is in flight and the retry interval has passed since the last attempt;
otherwise require the (longer) publish interval since the last confirmed
publish.  Time subtraction is unsigned 64-bit as in the source. -/
def Endpoint.ShouldPublishDescriptors (e : Endpoint) (now : Nat) : Bool :=
  if e.m_IntroSet.HasExpiredIntros now then
    e.m_CurrentPublishTX == 0
      && decide (INTROSET_PUBLISH_RETRY_INTERVAL ≤ sub64 now e.m_LastPublishAttempt)
  else
    e.m_CurrentPublishTX == 0
      && decide (INTROSET_PUBLISH_INTERVAL ≤ sub64 now e.m_LastPublish)

/-- `Endpoint::GetSeqNoForConvo` (endpoint.cpp lines 968-975): an absent tag
returns 0 and leaves the cache alone; otherwise the stored `uint64_t` seqno
is pre-incremented (wrapping modulo `2 ^ 64`) and the new value returned. -/
def Endpoint.GetSeqNoForConvo (e : Endpoint) (tag : Nat) : Nat × Endpoint :=
  match lookupKey tag e.m_Sessions with
  | none => (0, e)
  | some sess =>
    let v := (sess.seqno + 1) % W64
    (v, { e with m_Sessions := updateKey tag { sess with seqno := v } e.m_Sessions })

/-- Endpoint state after `n` successive calls of `GetSeqNoForConvo` on the
same tag. -/
def seqState (tag : Nat) (e : Endpoint) : Nat → Endpoint
  | 0 => e
  | n + 1 => (Endpoint.GetSeqNoForConvo (seqState tag e n) tag).2

/-- Value returned by call number `n + 1` of `GetSeqNoForConvo` on `tag`. -/
def seqReturn (tag : Nat) (e : Endpoint) (n : Nat) : Nat :=
  (Endpoint.GetSeqNoForConvo (seqState tag e n) tag).1

/-- `Endpoint::OutboundContext` alignment state used by the claims. -/
structure OutboundContext where
  currentIntroSet : IntroSet
  selectedIntro : Introduction
deriving DecidableEq

/-- The selection loop of `OutboundContext::ShiftIntroduction`
(endpoint.cpp lines 740-752): fold over `currentIntroSet.I`, replacing the
selected introduction whenever a candidate expires strictly later. -/
def shiftIntroLoop : List Introduction → Introduction → Introduction
  | [], sel => sel
  | cand :: rest, sel =>
    shiftIntroLoop rest (if sel.expiresAt < cand.expiresAt then cand else sel)

/-- `OutboundContext::ShiftIntroduction` as a state update (the
`EnsureRouterIsKnown` and `ManualRebuild` side calls go to out-of-scope
collaborators and do not touch this state). -/
def OutboundContext.ShiftIntroduction (c : OutboundContext) : OutboundContext :=
  { c with selectedIntro := shiftIntroLoop c.currentIntroSet.I c.selectedIntro }

/-- The `OutboundContext` constructor (endpoint.cpp lines 714-724): store
the introset, clear `selectedIntro`, then `ShiftIntroduction`. -/
def OutboundContext.construct (s : IntroSet) : OutboundContext :=
  OutboundContext.ShiftIntroduction
    { currentIntroSet := s, selectedIntro := Introduction.Clear }

/-- `OutboundContext::OnIntroSetUpdate` (endpoint.cpp lines 730-738):
accept the introset only when non-null and strictly newer; always return
true. -/
def OutboundContext.OnIntroSetUpdate (c : OutboundContext) (i : Option IntroSet) :
    OutboundContext × Bool :=
  match i with
  | some s =>
    if s.IsNewerThan c.currentIntroSet then ({ c with currentIntroSet := s }, true)
    else (c, true)
  | none => (c, true)

/-- The introset-refresh test of `OutboundContext::Tick` (endpoint.cpp line
931): `selectedIntro.expiresAt >= now || selectedIntro.expiresAt - now <
30000`, the subtraction being performed on unsigned `llarp_time_t`.
`UpdateIntroSet` is issued exactly when this test holds. -/
def OutboundContext.tickIssuesUpdate (c : OutboundContext) (now : Nat) : Bool :=
  decide (now ≤ c.selectedIntro.expiresAt)
    || decide (sub64 c.selectedIntro.expiresAt now < 30000)

/-- Modelled from the spec: the refresh condition the specification states
for `OutboundContext::Tick` — issue `UpdateIntroSet` iff `selectedIntro` is
already expired or within 30 s of expiry. -/
def claimTickShouldUpdate (c : OutboundContext) (now : Nat) : Bool :=
  decide (c.selectedIntro.expiresAt ≤ now)
    || decide (c.selectedIntro.expiresAt - now < 30000)

/-- Loop state of `Endpoint::GetConvoTagsForService`
(endpoint.cpp lines 346-360): the iterator position into `m_Sessions`, the
output tag set (as an ordered duplicate-free list) and the `inserted`
flag. -/
structure ScanState where
  i : Nat
  tags : List Nat
  inserted : Bool
deriving DecidableEq

/-- One iteration of the source's `while(itr != m_Sessions.end())` body in
`GetConvoTagsForService`: when the entry's remote matches, the tag is
inserted and the flag or-ed with whether the insertion was new — but, exactly
as written in the source, NEITHER branch advances the iterator.  When the
guard already fails (position past the end) the state is returned
unchanged. -/
def getConvoTagsStep (sessions : List (Nat × Session)) (info : Nat)
    (s : ScanState) : ScanState :=
  match sessions[s.i]? with
  | none => s
  | some (tag, sess) =>
    if sess.remote == info then
      { s with
        tags := if tag ∈ s.tags then s.tags else s.tags ++ [tag]
        inserted := s.inserted || decide (tag ∉ s.tags) }
    else s

/-- Modelled from the spec: `GetConvoTagsForService` as the specification
says it should behave ("implement with an explicit advance"): scan the whole
session cache, collect every tag whose session's remote matches, and report
whether at least one tag was inserted. -/
def getConvoTagsFixed (info : Nat) (tags : List Nat) :
    List (Nat × Session) → Bool × List Nat
  | [] => (false, tags)
  | (tag, sess) :: rest =>
    if sess.remote == info then
      let tags2 := if tag ∈ tags then tags else tags ++ [tag]
      let r := getConvoTagsFixed info tags2 rest
      (r.1 || decide (tag ∉ tags), r.2)
    else getConvoTagsFixed info tags rest

/-- The pending-lookup expiry step of `Endpoint::Tick`
(endpoint.cpp lines 128-145): walk `m_PendingLookups`; each entry whose
`IsTimedOut(now)` holds is removed and its `HandleResponse` handler invoked
with the empty introset set (recorded here as an event `(txid, ∅)`); every
other entry is kept and its handler not invoked. -/
def tickExpireLookups (now : Nat) :
    List (Nat × ServiceLookup) →
      List (Nat × ServiceLookup) × List (Nat × List IntroSet)
  | [] => ([], [])
  | (t, l) :: rest =>
    let r := tickExpireLookups now rest
    if l.IsTimedOut now then (r.1, (t, []) :: r.2)
    else ((t, l) :: r.1, r.2)

/-- Outcome of `Endpoint::EnsurePathToService`: returned boolean, the
resulting `m_PendingServiceLookups` table, and the hooks invoked
immediately (the existing-session fast path). -/
structure EnsureOutcome where
  ret : Bool
  pendingServiceLookups : List (Nat × Nat)
  hooksInvoked : List Nat
deriving DecidableEq

/-- `Endpoint::EnsurePathToService` (endpoint.cpp lines 673-712).  External
collaborators are oracle parameters: `hasPath` is whether
`GetEstablishedPathClosestTo` yields a path, `sendOk` whether the lookup
job's `SendRequestViaPath` succeeds.  Hooks are opaque ids; a hook is
registered by inserting it into `m_PendingServiceLookups` (map insertion
position is immaterial to the claims). -/
def Endpoint.EnsurePathToService (e : Endpoint) (remote hook : Nat)
    (hasPath sendOk : Bool) : EnsureOutcome :=
  if hasPath = false then ⟨false, e.m_PendingServiceLookups, []⟩
  else if remote ∈ e.m_RemoteSessions then ⟨true, e.m_PendingServiceLookups, [hook]⟩
  else
    match lookupKey remote e.m_PendingServiceLookups with
    | some _ => ⟨false, e.m_PendingServiceLookups, []⟩
    | none =>
      let pending2 := e.m_PendingServiceLookups ++ [(remote, hook)]
      if sendOk then ⟨true, pending2, []⟩ else ⟨false, pending2, []⟩

/-- The inbound `GotIntroMessage{T, I}` envelope. -/
structure GotIntroMessage where
  T : Nat
  I : List IntroSet
deriving DecidableEq

/-- Outcome of `Endpoint::HandleGotIntroMessage`: resulting endpoint state,
returned boolean, whether `IntroSetPublished` ran, whether
`IntroSetPublishFail` ran, and the responses delivered to pending lookups
(txid with the introset set handed to `HandleResponse`). -/
structure GotIntroOutcome where
  st : Endpoint
  ret : Bool
  published : Bool
  publishFail : Bool
  responses : List (Nat × List IntroSet)
deriving DecidableEq

/-- Insertion into the `std::set<IntroSet> remote` accumulator (one copy of
each introset; ordering is immaterial to the claims). -/
def insertIntroSet (s : IntroSet) (l : List IntroSet) : List IntroSet :=
  if s ∈ l then l else l ++ [s]

/-- The body of `Endpoint::HandleGotIntroMessage`
(endpoint.cpp lines 259-300), recursing over `msg->I` with the `remote`
accumulator.  An invalid signature aborts with false, first running
`IntroSetPublishFail` (which clears `m_CurrentPublishTX` and touches nothing
else, lines 480-485) when the introset is ours and the txid matches our
in-flight publish.  A valid self-introset under the matching txid runs
`IntroSetPublished` (clear txid, record `m_LastPublish := now`, lines
497-503) and returns true.  Otherwise the introsets are accumulated and, at
the end, delivered to the pending lookup registered under `msg->T`, which is
erased. -/
def handleGotIntroLoop (e : Endpoint) (msgT now : Nat) :
    List IntroSet → List IntroSet → GotIntroOutcome
  | [], remote =>
    match lookupKey msgT e.m_PendingLookups with
    | none => ⟨e, true, false, false, []⟩
    | some _ =>
      ⟨{ e with m_PendingLookups := eraseKey msgT e.m_PendingLookups },
        true, false, false, [(msgT, remote)]⟩
  | introset :: rest, remote =>
    if introset.sigOk = false then
      if e.m_Identity_pub = introset.A ∧ e.m_CurrentPublishTX = msgT then
        ⟨{ e with m_CurrentPublishTX := 0 }, false, false, true, []⟩
      else ⟨e, false, false, false, []⟩
    else if e.m_Identity_pub = introset.A ∧ e.m_CurrentPublishTX = msgT then
      ⟨{ e with m_CurrentPublishTX := 0, m_LastPublish := now }, true, true, false, []⟩
    else handleGotIntroLoop e msgT now rest (insertIntroSet introset remote)

/-- `Endpoint::HandleGotIntroMessage` entry point. -/
def Endpoint.HandleGotIntroMessage (e : Endpoint) (msg : GotIntroMessage)
    (now : Nat) : GotIntroOutcome :=
  handleGotIntroLoop e msg.T now msg.I []

/-- A concrete endpoint with one fresh session cached under tag 0 (used by
concrete instantiations below). -/
def endpointWithFreshSession : Endpoint :=
  { m_Identity_pub := 1
    m_CurrentPublishTX := 0
    m_LastPublish := 0
    m_LastPublishAttempt := 0
    m_IntroSet := ⟨1, [], 0, 0, 0, true⟩
    m_Sessions := [(0, Session.fresh)]
    m_PendingLookups := []
    m_PendingServiceLookups := []
    m_RemoteSessions := [] }

/-- A concrete endpoint with a publish in flight under txid 5 (used for the
publish-confirmation counterexample). -/
def endpointPublishing : Endpoint :=
  { m_Identity_pub := 1
    m_CurrentPublishTX := 5
    m_LastPublish := 0
    m_LastPublishAttempt := 7
    m_IntroSet := ⟨1, [], 0, 0, 0, true⟩
    m_Sessions := []
    m_PendingLookups := []
    m_PendingServiceLookups := []
    m_RemoteSessions := [] }

/-- A concrete endpoint with a pending service lookup for address 5 (hook id
9) and no remote session (used for the duplicate-lookup instantiation). -/
def endpointPendingFive : Endpoint :=
  { m_Identity_pub := 1
    m_CurrentPublishTX := 0
    m_LastPublish := 0
    m_LastPublishAttempt := 0
    m_IntroSet := ⟨1, [], 0, 0, 0, true⟩
    m_Sessions := []
    m_PendingLookups := []
    m_PendingServiceLookups := [(5, 9)]
    m_RemoteSessions := [] }

/-- A concrete introset signed at time 10 advertising one introduction. -/
def introSetOld : IntroSet := ⟨3, [⟨1, 1, 5⟩], 0, 0, 10, true⟩

/-- A concrete introset signed at time 11 (newer) whose introduction list
does not contain `introSetOld`'s introduction. -/
def introSetNew : IntroSet := ⟨3, [⟨2, 2, 3⟩], 0, 0, 11, true⟩

/-- A concrete outbound context whose selected introduction expires at
100000 ms, more than 30 s after `now = 0`, with no expired intro in its
current introset. -/
def contextFarFromExpiry : OutboundContext :=
  ⟨⟨2, [⟨1, 1, 100000⟩], 0, 0, 0, true⟩, ⟨1, 1, 100000⟩⟩

/-- A concrete pending-lookup table: txid 1 with deadline 10 (past at
`now = 20`), txid 2 with deadline 50 (not past). -/
def pendingSample : List (Nat × ServiceLookup) := [(1, ⟨1, 10⟩), (2, ⟨2, 50⟩)]

/-- A concrete introset for a foreign identity (2) whose signature does not
verify. -/
def badOtherIntroSet : IntroSet := ⟨2, [], 0, 0, 0, false⟩

/-- A concrete introset for our own identity (1) whose signature
verifies. -/
def goodSelfIntroSet : IntroSet := ⟨1, [], 0, 0, 0, true⟩

/-- A concrete introset for a foreign identity (4) whose signature
verifies. -/
def goodOtherIntroSet : IntroSet := ⟨4, [], 0, 0, 0, true⟩

/-- A `GotIntroMessage` under our in-flight publish txid 5 in which an
invalid foreign introset precedes our own validly signed introset. -/
def publishConfirmMsgBadFirst : GotIntroMessage :=
  ⟨5, [badOtherIntroSet, goodSelfIntroSet]⟩

/-- A `GotIntroMessage` under our in-flight publish txid 5 in which a valid
foreign introset precedes our own validly signed introset. -/
def publishConfirmMsgGood : GotIntroMessage :=
  ⟨5, [goodOtherIntroSet, goodSelfIntroSet]⟩

/-- The iterator position is invariant under the scan body of
`GetConvoTagsForService`: neither branch of the loop advances it. -/
lemma getConvoTagsStep_i (sessions : List (Nat × Session)) (info : Nat)
    (s : ScanState) : (getConvoTagsStep sessions info s).i = s.i := by
  unfold getConvoTagsStep
  cases h : sessions[s.i]? with
  | none => rfl
  | some p =>
    obtain ⟨tag, sess⟩ := p
    by_cases hr : sess.remote == info <;> simp [hr]

/-- The result of the `ShiftIntroduction` selection loop is either one of
the scanned introductions or the initial selection. -/
lemma shiftIntroLoop_mem_or_eq (l : List Introduction) (sel : Introduction) :
    shiftIntroLoop l sel ∈ l ∨ shiftIntroLoop l sel = sel := by
  induction l generalizing sel with
  | nil => exact Or.inr rfl
  | cons a rest ih =>
    by_cases h : sel.expiresAt < a.expiresAt
    · rcases ih a with hm | he
      · exact Or.inl (List.mem_cons_of_mem a (by simpa [shiftIntroLoop, h] using hm))
      · exact Or.inl (by simp [shiftIntroLoop, h, he])
    · rcases ih sel with hm | he
      · exact Or.inl (List.mem_cons_of_mem a (by simpa [shiftIntroLoop, h] using hm))
      · exact Or.inr (by simpa [shiftIntroLoop, h] using he)

/-- If some scanned introduction expires strictly after the initial
selection, the `ShiftIntroduction` loop ends on a scanned introduction. -/
lemma shiftIntroLoop_mem (l : List Introduction) (sel : Introduction)
    (h : ∃ x ∈ l, sel.expiresAt < x.expiresAt) : shiftIntroLoop l sel ∈ l := by
  induction l generalizing sel with
  | nil => simp at h
  | cons a rest ih =>
    by_cases hc : sel.expiresAt < a.expiresAt
    · rcases shiftIntroLoop_mem_or_eq rest a with hm | he
      · exact List.mem_cons_of_mem a (by simpa [shiftIntroLoop, hc] using hm)
      · have : shiftIntroLoop (a :: rest) sel = a := by simpa [shiftIntroLoop, hc] using he
        simp [this]
    · rcases h with ⟨x, hx, hlt⟩
      rcases List.mem_cons.mp hx with rfl | hxr
      · exact absurd hlt hc
      · exact List.mem_cons_of_mem a
          (by simpa [shiftIntroLoop, hc] using ih sel ⟨x, hxr, hlt⟩)

/-- Updating an existing key makes the new value visible to lookup. -/
lemma lookupKey_updateKey_self {α : Type} (k : Nat) (v : α) :
    ∀ m : List (Nat × α), lookupKey k m ≠ none →
      lookupKey k (updateKey k v m) = some v := by
  intro m
  induction m with
  | nil => intro h; exact absurd rfl h
  | cons p rest ih =>
    obtain ⟨k2, v2⟩ := p
    intro h
    by_cases hk : k2 = k
    · simp [updateKey, lookupKey, hk]
    · simp only [updateKey, lookupKey, hk, if_false] at h ⊢
      exact ih h

/-- After `n` calls of `GetSeqNoForConvo` on a cached tag, the entry is
still cached and its seqno is the initial seqno plus `n`, modulo `2^64`. -/
lemma seqState_lookup (tag : Nat) (e : Endpoint) (s : Session)
    (h : lookupKey tag e.m_Sessions = some s) (hlt : s.seqno < W64) :
    ∀ n : Nat, lookupKey tag (seqState tag e n).m_Sessions
      = some { s with seqno := (s.seqno + n) % W64 } := by
  intro n
  induction n with
  | zero => simpa [seqState, Nat.mod_eq_of_lt hlt] using h
  | succ n ih =>
    show lookupKey tag (Endpoint.GetSeqNoForConvo (seqState tag e n) tag).2.m_Sessions
      = some { s with seqno := (s.seqno + (n + 1)) % W64 }
    rw [Endpoint.GetSeqNoForConvo, ih]
    simp only []
    rw [lookupKey_updateKey_self tag _ _ (by rw [ih]; exact fun hc => Option.noConfusion hc)]
    have harith : ((s.seqno + n) % W64 + 1) % W64 = (s.seqno + (n + 1)) % W64 := by
      rw [Nat.mod_add_mod, ← Nat.add_assoc]
    simp [harith]

/-- The value returned by call number `n + 1` of `GetSeqNoForConvo` on a
cached tag whose initial seqno is `s.seqno`. -/
lemma seqReturn_eq (tag : Nat) (e : Endpoint) (s : Session)
    (h : lookupKey tag e.m_Sessions = some s) (hlt : s.seqno < W64) (n : Nat) :
    seqReturn tag e n = (s.seqno + n + 1) % W64 := by
  have hl := seqState_lookup tag e s h hlt n
  rw [seqReturn, Endpoint.GetSeqNoForConvo, hl]
  simp only []
  rw [Nat.mod_add_mod]

/-- Claim C1 (code bug): at `now = 0` with `selectedIntro` expiring at
100000 ms — more than 30 s away — and no expired intro in
`currentIntroSet`, the introset-refresh test of `OutboundContext::Tick`
still fires (its first disjunct `expiresAt >= now` holds for every
non-expired introduction), so the source issues an `UpdateIntroSet` lookup
although the claimed condition (within 30 s of expiry or already expired)
is false at this input. -/
theorem outboundTick_bug :
    contextFarFromExpiry.currentIntroSet.HasExpiredIntros 0 = false
  ∧ OutboundContext.tickIssuesUpdate contextFarFromExpiry 0 = true
  ∧ claimTickShouldUpdate contextFarFromExpiry 0 = false := by decide

/-- Claim C2 (code bug): the scan loop of
`Endpoint::GetConvoTagsForService` never advances its iterator — after any
number `n` of iterations of the loop body the iterator still sits at
position 0.  Hence on any non-empty session cache the exit test
`itr != m_Sessions.end()` never fails and the scan does not terminate,
contradicting the claimed termination and return value. -/
theorem getConvoTags_nonterminating (sessions : List (Nat × Session))
    (info : Nat) (n : Nat) :
    ((getConvoTagsStep sessions info)^[n] ⟨0, [], false⟩).i = 0 := by
  induction n with
  | zero => rfl
  | succ n ih => rw [Function.iterate_succ_apply', getConvoTagsStep_i, ih]

/-- Claim C3: `ShouldPublishDescriptors(now)` is true iff — when the current
introset has an expired intro — no publish is in flight and the retry
interval has passed since the last attempt, and otherwise no publish is in
flight and the publish interval has passed since the last confirmed publish;
in particular it is never true while `m_CurrentPublishTX != 0`. -/
theorem shouldPublishDescriptors_spec (e : Endpoint) (now : Nat) :
    (e.ShouldPublishDescriptors now = true ↔
      (if e.m_IntroSet.HasExpiredIntros now = true then
        e.m_CurrentPublishTX = 0 ∧
          INTROSET_PUBLISH_RETRY_INTERVAL ≤ sub64 now e.m_LastPublishAttempt
      else
        e.m_CurrentPublishTX = 0 ∧
          INTROSET_PUBLISH_INTERVAL ≤ sub64 now e.m_LastPublish))
  ∧ (e.m_CurrentPublishTX ≠ 0 → e.ShouldPublishDescriptors now = false) := by
  constructor
  · cases h : e.m_IntroSet.HasExpiredIntros now <;>
      simp [Endpoint.ShouldPublishDescriptors, h]
  · intro hne
    have hb : (e.m_CurrentPublishTX == 0) = false := beq_eq_false_iff_ne.mpr hne
    cases h : e.m_IntroSet.HasExpiredIntros now <;>
      simp [Endpoint.ShouldPublishDescriptors, h, hb]

/-- Witness for claim C3 at a concrete endpoint and time. -/
theorem shouldPublishDescriptors_spec_witness :
    (endpointWithFreshSession.ShouldPublishDescriptors 3 = true ↔
      (if endpointWithFreshSession.m_IntroSet.HasExpiredIntros 3 = true then
        endpointWithFreshSession.m_CurrentPublishTX = 0 ∧
          INTROSET_PUBLISH_RETRY_INTERVAL
            ≤ sub64 3 endpointWithFreshSession.m_LastPublishAttempt
      else
        endpointWithFreshSession.m_CurrentPublishTX = 0 ∧
          INTROSET_PUBLISH_INTERVAL
            ≤ sub64 3 endpointWithFreshSession.m_LastPublish))
  ∧ (endpointWithFreshSession.m_CurrentPublishTX ≠ 0 →
      endpointWithFreshSession.ShouldPublishDescriptors 3 = false) :=
  shouldPublishDescriptors_spec endpointWithFreshSession 3

/-- Claim C5: `OnIntroSetUpdate(i)` leaves `currentIntroSet` unchanged when
`i` is null or not strictly newer by last-signed timestamp, replaces it when
`i` is strictly newer, and consequently the last-signed timestamp of
`currentIntroSet` never decreases across the call. -/
theorem onIntroSetUpdate_monotone (c : OutboundContext) (i : Option IntroSet) :
    ((c.OnIntroSetUpdate i).1.currentIntroSet =
      match i with
      | none => c.currentIntroSet
      | some s => if c.currentIntroSet.T < s.T then s else c.currentIntroSet)
  ∧ c.currentIntroSet.T ≤ (c.OnIntroSetUpdate i).1.currentIntroSet.T := by
  cases i with
  | none => exact ⟨rfl, Nat.le_refl _⟩
  | some s =>
    by_cases h : c.currentIntroSet.T < s.T
    · refine ⟨?_, ?_⟩ <;>
        simp [OutboundContext.OnIntroSetUpdate, IntroSet.IsNewerThan, h]
      exact Nat.le_of_lt h
    · refine ⟨?_, ?_⟩ <;>
        simp [OutboundContext.OnIntroSetUpdate, IntroSet.IsNewerThan, h]

/-- Witness for claim C5 at concrete context and update. -/
theorem onIntroSetUpdate_monotone_witness :
    ((OutboundContext.OnIntroSetUpdate ⟨introSetOld, ⟨1, 1, 5⟩⟩
        (some introSetNew)).1.currentIntroSet =
      if introSetOld.T < introSetNew.T then introSetNew else introSetOld)
  ∧ introSetOld.T ≤ ((OutboundContext.OnIntroSetUpdate ⟨introSetOld, ⟨1, 1, 5⟩⟩
        (some introSetNew)).1.currentIntroSet).T :=
  onIntroSetUpdate_monotone ⟨introSetOld, ⟨1, 1, 5⟩⟩ (some introSetNew)

/-- Claim C6: the pending-lookup expiry step of `Endpoint::Tick` keeps
exactly the entries whose deadline is not past, and produces exactly one
handler invocation — with the empty introset set — for each entry whose
deadline is past, in table order; entries that are kept get no handler
invocation. -/
theorem tickExpireLookups_spec (pending : List (Nat × ServiceLookup)) (now : Nat) :
    (tickExpireLookups now pending).1
        = pending.filter (fun p => !(p.2.IsTimedOut now))
  ∧ (tickExpireLookups now pending).2
        = (pending.filter (fun p => p.2.IsTimedOut now)).map
            (fun p => (p.1, ([] : List IntroSet))) := by
  induction pending with
  | nil => exact ⟨rfl, rfl⟩
  | cons p rest ih =>
    obtain ⟨t, l⟩ := p
    cases h : l.IsTimedOut now <;>
      simp [tickExpireLookups, h, ih.1, ih.2, List.filter_cons]

/-- Witness for claim C6 at a concrete pending table and time. -/
theorem tickExpireLookups_spec_witness :
    (tickExpireLookups 20 pendingSample).1
        = pendingSample.filter (fun p => !(p.2.IsTimedOut 20))
  ∧ (tickExpireLookups 20 pendingSample).2
        = (pendingSample.filter (fun p => p.2.IsTimedOut 20)).map
            (fun p => (p.1, ([] : List IntroSet))) :=
  tickExpireLookups_spec pendingSample 20

/-- Claim C7: when an established path exists, no remote session exists for
`remote`, and a service lookup for `remote` is already pending,
`EnsurePathToService` returns false, invokes no hook, and leaves
`m_PendingServiceLookups` unchanged. -/
theorem ensurePath_duplicate_spec (e : Endpoint) (remote hook : Nat)
    (sendOk : Bool) (hsess : remote ∉ e.m_RemoteSessions)
    (hpend : lookupKey remote e.m_PendingServiceLookups ≠ none) :
    e.EnsurePathToService remote hook true sendOk
      = ⟨false, e.m_PendingServiceLookups, []⟩ := by
  cases h : lookupKey remote e.m_PendingServiceLookups with
  | none => exact absurd h hpend
  | some v => simp [Endpoint.EnsurePathToService, hsess, h]

/-- Witness for claim C7 at a concrete endpoint with a pending lookup for
address 5. -/
theorem ensurePath_duplicate_spec_witness :
    endpointPendingFive.EnsurePathToService 5 7 true true
      = ⟨false, endpointPendingFive.m_PendingServiceLookups, []⟩ :=
  ensurePath_duplicate_spec endpointPendingFive 5 7 true (by decide) (by decide)

/-- Counterexample for claim C8: construct an `OutboundContext` from
`introSetOld` (its introduction is selected), then deliver a strictly newer
introset whose introduction list is different; `OnIntroSetUpdate` replaces
`currentIntroSet` without recomputing `selectedIntro`, so the stale
`selectedIntro` is not an element of the non-empty updated
`currentIntroSet.I`. -/
theorem selectedIntro_cex :
    ((OutboundContext.OnIntroSetUpdate (OutboundContext.construct introSetOld)
        (some introSetNew)).1.currentIntroSet.I ≠ [])
  ∧ ((OutboundContext.OnIntroSetUpdate (OutboundContext.construct introSetOld)
        (some introSetNew)).1.selectedIntro
      ∉ (OutboundContext.OnIntroSetUpdate (OutboundContext.construct introSetOld)
        (some introSetNew)).1.currentIntroSet.I) := by decide

/-- Claim C8 amended: after the constructor's `ShiftIntroduction`,
`selectedIntro` is an element of `currentIntroSet.I` provided some listed
introduction has a positive expiry (otherwise the cleared selection
survives), and `ShiftIntroduction` preserves that membership; the invariant
is not preserved by `OnIntroSetUpdate`, which replaces the introset without
recomputing the selection (see the counterexample). -/
theorem selectedIntro_amended :
    (∀ s : IntroSet, (∃ x ∈ s.I, 0 < x.expiresAt) →
      (OutboundContext.construct s).selectedIntro ∈ s.I)
  ∧ ∀ c : OutboundContext, c.selectedIntro ∈ c.currentIntroSet.I →
      (OutboundContext.ShiftIntroduction c).selectedIntro ∈ c.currentIntroSet.I := by
  constructor
  · intro s hx
    have hcl : ∃ x ∈ s.I, Introduction.Clear.expiresAt < x.expiresAt := by
      simpa [Introduction.Clear] using hx
    show shiftIntroLoop s.I Introduction.Clear ∈ s.I
    exact shiftIntroLoop_mem s.I Introduction.Clear hcl
  · intro c hmem
    show shiftIntroLoop c.currentIntroSet.I c.selectedIntro ∈ c.currentIntroSet.I
    rcases shiftIntroLoop_mem_or_eq c.currentIntroSet.I c.selectedIntro with hm | he
    · exact hm
    · rw [he]; exact hmem

/-- Witness for claim C8 (amended) at the concrete introset
`introSetOld`. -/
theorem selectedIntro_amended_witness :
    (OutboundContext.construct introSetOld).selectedIntro ∈ introSetOld.I
  ∧ (OutboundContext.ShiftIntroduction
        (OutboundContext.construct introSetOld)).selectedIntro
      ∈ (OutboundContext.construct introSetOld).currentIntroSet.I :=
  ⟨selectedIntro_amended.1 introSetOld ⟨⟨1, 1, 5⟩, by decide, by decide⟩,
   selectedIntro_amended.2 (OutboundContext.construct introSetOld)
     (selectedIntro_amended.1 introSetOld ⟨⟨1, 1, 5⟩, by decide, by decide⟩)⟩

/-- When every introset before `s` has a valid signature and a foreign
identity, the `HandleGotIntroMessage` loop reaches `s`; if `s` is our own
introset under the in-flight publish txid, the loop ends in
`IntroSetPublished` (valid signature) or `IntroSetPublishFail` (invalid
signature) with the corresponding state updates. -/
lemma handleGotIntroLoop_publish (e : Endpoint) (msgT now : Nat) (s : IntroSet)
    (hT : e.m_CurrentPublishTX = msgT) (hs : s.A = e.m_Identity_pub) :
    ∀ pre : List IntroSet,
      (∀ x ∈ pre, x.sigOk = true ∧ x.A ≠ e.m_Identity_pub) →
      ∀ rest remote : List IntroSet,
        handleGotIntroLoop e msgT now (pre ++ s :: rest) remote
          = if s.sigOk then
              ⟨{ e with m_CurrentPublishTX := 0, m_LastPublish := now },
                true, true, false, []⟩
            else ⟨{ e with m_CurrentPublishTX := 0 }, false, false, true, []⟩ := by
  intro pre
  induction pre with
  | nil =>
    intro _ rest remote
    cases hsig : s.sigOk <;>
      simp [handleGotIntroLoop, hsig, hs.symm, hT]
  | cons x pre ih =>
    intro hpre rest remote
    obtain ⟨hxs, hxa⟩ := hpre x (List.mem_cons_self x pre)
    have hno : ¬(e.m_Identity_pub = x.A ∧ e.m_CurrentPublishTX = msgT) :=
      fun hcon => hxa hcon.1.symm
    have hrec := ih (fun y hy => hpre y (List.mem_cons_of_mem x hy)) rest
      (insertIntroSet x remote)
    simpa [handleGotIntroLoop, hxs, hno] using hrec

/-- `(a + 1) % 2^64 = 0` exactly when the `uint64_t` value `a` is at the
wrap boundary. -/
lemma mod_succ_eq_zero_iff (a : Nat) (ha : a < W64) :
    (a + 1) % W64 = 0 ↔ a = W64 - 1 := by
  have hW : W64 = 18446744073709551616 := by norm_num [W64]
  rw [hW] at ha ⊢
  omega

/-- Counterexample for claim C4: a message under our publish txid whose
introset list holds an invalid foreign introset ahead of our validly signed
introset.  The source returns false on the first signature failure, so
`IntroSetPublished` never runs and the publish txid is not cleared, although
the message contains a self-matching introset with a valid signature. -/
theorem handleGotIntro_cex :
    publishConfirmMsgBadFirst.T = endpointPublishing.m_CurrentPublishTX
  ∧ (∃ i ∈ publishConfirmMsgBadFirst.I,
      i.A = endpointPublishing.m_Identity_pub ∧ i.sigOk = true)
  ∧ (endpointPublishing.HandleGotIntroMessage publishConfirmMsgBadFirst 100).published
      = false
  ∧ (endpointPublishing.HandleGotIntroMessage
        publishConfirmMsgBadFirst 100).st.m_CurrentPublishTX ≠ 0
  ∧ (endpointPublishing.HandleGotIntroMessage publishConfirmMsgBadFirst 100).ret
      = false := by decide

/-- Claim C4 amended: for a `GotIntroMessage` whose txid equals
`m_CurrentPublishTX` and in which the first self-matching introset `s` is
preceded only by validly signed foreign introsets: if `s`'s signature
verifies, `IntroSetPublished` runs (txid cleared, `m_LastPublish := now`);
if it does not verify, `IntroSetPublishFail` runs (txid cleared,
`m_LastPublishAttempt` unchanged). -/
theorem handleGotIntro_publish_amended (e : Endpoint) (msg : GotIntroMessage)
    (now : Nat) (pre : List IntroSet) (s : IntroSet) (rest : List IntroSet)
    (hI : msg.I = pre ++ s :: rest)
    (hT : e.m_CurrentPublishTX = msg.T)
    (hs : s.A = e.m_Identity_pub)
    (hpre : ∀ x ∈ pre, x.sigOk = true ∧ x.A ≠ e.m_Identity_pub) :
    (s.sigOk = true →
        (e.HandleGotIntroMessage msg now).published = true
      ∧ (e.HandleGotIntroMessage msg now).st.m_CurrentPublishTX = 0
      ∧ (e.HandleGotIntroMessage msg now).st.m_LastPublish = now
      ∧ (e.HandleGotIntroMessage msg now).ret = true)
  ∧ (s.sigOk = false →
        (e.HandleGotIntroMessage msg now).publishFail = true
      ∧ (e.HandleGotIntroMessage msg now).st.m_CurrentPublishTX = 0
      ∧ (e.HandleGotIntroMessage msg now).st.m_LastPublishAttempt
          = e.m_LastPublishAttempt
      ∧ (e.HandleGotIntroMessage msg now).ret = false) := by
  have hmain := handleGotIntroLoop_publish e msg.T now s hT hs pre hpre rest []
  rw [Endpoint.HandleGotIntroMessage, hI]
  rw [hmain]
  constructor
  · intro hsig; simp [hsig]
  · intro hsig; simp [hsig]

/-- Witness for claim C4 (amended): a valid foreign introset precedes our
valid self introset; the publish confirmation is processed. -/
theorem handleGotIntro_publish_amended_witness :
    (goodSelfIntroSet.sigOk = true →
        (endpointPublishing.HandleGotIntroMessage publishConfirmMsgGood 100).published
            = true
      ∧ (endpointPublishing.HandleGotIntroMessage
            publishConfirmMsgGood 100).st.m_CurrentPublishTX = 0
      ∧ (endpointPublishing.HandleGotIntroMessage
            publishConfirmMsgGood 100).st.m_LastPublish = 100
      ∧ (endpointPublishing.HandleGotIntroMessage publishConfirmMsgGood 100).ret
            = true)
  ∧ (goodSelfIntroSet.sigOk = false →
        (endpointPublishing.HandleGotIntroMessage publishConfirmMsgGood 100).publishFail
            = true
      ∧ (endpointPublishing.HandleGotIntroMessage
            publishConfirmMsgGood 100).st.m_CurrentPublishTX = 0
      ∧ (endpointPublishing.HandleGotIntroMessage
            publishConfirmMsgGood 100).st.m_LastPublishAttempt
          = endpointPublishing.m_LastPublishAttempt
      ∧ (endpointPublishing.HandleGotIntroMessage publishConfirmMsgGood 100).ret
            = false) :=
  handleGotIntro_publish_amended endpointPublishing publishConfirmMsgGood 100
    [goodOtherIntroSet] goodSelfIntroSet [] rfl rfl rfl (by decide)

/-- Counterexample for claim C9: on a fresh session the value returned by
`GetSeqNoForConvo` at call number `2^64 - 1` is `2^64 - 1`, but the next
(successive) call returns 0 — the `uint64_t` pre-increment wraps — so the
returned values are not strictly increasing at the wrap boundary. -/
theorem seqno_wrap_cex :
    seqReturn 0 endpointWithFreshSession (W64 - 2) = W64 - 1
  ∧ seqReturn 0 endpointWithFreshSession (W64 - 1) = 0
  ∧ ¬ seqReturn 0 endpointWithFreshSession (W64 - 2)
        < seqReturn 0 endpointWithFreshSession (W64 - 1) := by
  have h : lookupKey 0 endpointWithFreshSession.m_Sessions = some Session.fresh := rfl
  have hfresh : Session.fresh.seqno < W64 := by decide
  have h1 := seqReturn_eq 0 endpointWithFreshSession Session.fresh h hfresh (W64 - 2)
  have h2 := seqReturn_eq 0 endpointWithFreshSession Session.fresh h hfresh (W64 - 1)
  have hs0 : Session.fresh.seqno = 0 := rfl
  have hW : W64 = 18446744073709551616 := by norm_num [W64]
  rw [hs0] at h1 h2
  rw [hW] at h1 h2 ⊢
  rw [h1, h2]
  refine ⟨?_, ?_, ?_⟩ <;> omega

/-- Claim C9 amended: on a session entry created with `seqno = 0`, the first
call of `GetSeqNoForConvo` returns 1 and successive calls return strictly
increasing values as long as fewer than `2^64` calls have been made (the
call numbered `k` returns `k mod 2^64`, so strictness fails only at the wrap
boundary exhibited in the counterexample). -/
theorem seqno_increasing_amended (tag : Nat) (e : Endpoint) (s : Session)
    (h : lookupKey tag e.m_Sessions = some s) (h0 : s.seqno = 0) :
    seqReturn tag e 0 = 1
  ∧ ∀ n : Nat, n + 2 < W64 → seqReturn tag e n < seqReturn tag e (n + 1) := by
  have hlt : s.seqno < W64 := by rw [h0]; norm_num [W64]
  constructor
  · rw [seqReturn_eq tag e s h hlt 0, h0]
    norm_num [W64]
  · intro n hn
    rw [seqReturn_eq tag e s h hlt n, seqReturn_eq tag e s h hlt (n + 1), h0]
    rw [Nat.mod_eq_of_lt (by omega : 0 + n + 1 < W64),
      Nat.mod_eq_of_lt (by omega : 0 + (n + 1) + 1 < W64)]
    omega

/-- Witness for claim C9 (amended) on the concrete fresh-session
endpoint. -/
theorem seqno_increasing_amended_witness :
    seqReturn 0 endpointWithFreshSession 0 = 1
  ∧ seqReturn 0 endpointWithFreshSession 3 < seqReturn 0 endpointWithFreshSession 4 :=
  ⟨(seqno_increasing_amended 0 endpointWithFreshSession Session.fresh rfl rfl).1,
   (seqno_increasing_amended 0 endpointWithFreshSession Session.fresh rfl rfl).2 3
     (by norm_num [W64])⟩

/-- Counterexample for claim C10: after `2^64 - 1` calls on the fresh
session under tag 0 the tag still has a session entry, yet the next
`GetSeqNoForConvo` call returns 0 — so 0 is returned for a tag that has an
entry, at the `uint64_t` wrap boundary. -/
theorem seqno_zero_cex :
    (lookupKey 0 (seqState 0 endpointWithFreshSession (W64 - 1)).m_Sessions).isSome
        = true
  ∧ seqReturn 0 endpointWithFreshSession (W64 - 1) = 0 := by
  have h : lookupKey 0 endpointWithFreshSession.m_Sessions = some Session.fresh := rfl
  have hfresh : Session.fresh.seqno < W64 := by decide
  have hl := seqState_lookup 0 endpointWithFreshSession Session.fresh h hfresh (W64 - 1)
  constructor
  · rw [hl]; rfl
  · rw [seqReturn_eq 0 endpointWithFreshSession Session.fresh h hfresh (W64 - 1)]
    have hs0 : Session.fresh.seqno = 0 := rfl
    have hW : W64 = 18446744073709551616 := by norm_num [W64]
    rw [hs0, hW]

/-- Claim C10 amended: `GetSeqNoForConvo` on an absent tag returns 0 and
leaves the endpoint (in particular the session cache) unchanged; for a
present tag it returns 0 exactly when the stored seqno is at the `uint64_t`
wrap boundary `2^64 - 1` (so away from the boundary, 0 identifies an absent
tag). -/
theorem getSeqNo_missing_amended (e : Endpoint) (tag : Nat) :
    (lookupKey tag e.m_Sessions = none → e.GetSeqNoForConvo tag = (0, e))
  ∧ ∀ s : Session, lookupKey tag e.m_Sessions = some s → s.seqno < W64 →
      ((e.GetSeqNoForConvo tag).1 = 0 ↔ s.seqno = W64 - 1) := by
  constructor
  · intro h
    rw [Endpoint.GetSeqNoForConvo, h]
  · intro s hsome hlt
    rw [Endpoint.GetSeqNoForConvo, hsome]
    show (s.seqno + 1) % W64 = 0 ↔ s.seqno = W64 - 1
    exact mod_succ_eq_zero_iff s.seqno hlt

/-- Witness for claim C10 (amended): absent tag 33 returns 0 with the state
unchanged; present tag 0 (fresh seqno) returns 0 iff it sits at the wrap
boundary. -/
theorem getSeqNo_missing_amended_witness :
    endpointWithFreshSession.GetSeqNoForConvo 33 = (0, endpointWithFreshSession)
  ∧ ((endpointWithFreshSession.GetSeqNoForConvo 0).1 = 0 ↔
      Session.fresh.seqno = W64 - 1) :=
  ⟨(getSeqNo_missing_amended endpointWithFreshSession 33).1 rfl,
   (getSeqNo_missing_amended endpointWithFreshSession 0).2 Session.fresh rfl
     (by decide)⟩

end Loki
